import Mathlib

/-!
Shallow embedding of the status/arbitration core of the wall-bouncer robot
controller, as implemented in src/main.py and src/real_wall_bouncer.py.

Times are modelled as integers (milliseconds of the monotonic tick clock);
the MicroPython helper ticks_diff(a, b) is modelled as the integer
subtraction a - b. The two near-duplicate program variants are embedded
separately where they differ.
-/

namespace WallBouncer

/-- Battery band derived from total active time, in milliseconds. -/
inductive Band
  | NORMAL
  | DEGRADED
  | CRITICAL
deriving DecidableEq, Repr

/-- Battery banding of src/real_wall_bouncer.py lines 119-141 and
src/main.py lines 114-133: `if t > 55000` critical, `elif t > 45000`
degraded (low battery), `else` normal. -/
def battery_band (t : Int) : Band :=
  if t > 55000 then Band.CRITICAL
  else if t > 45000 then Band.DEGRADED
  else Band.NORMAL

/-- Pause / work-timer state of src/real_wall_bouncer.py (globals at
lines 22-26): paused flag, accumulated work time, start of the current
work session, and the debounce timestamp. -/
structure WState where
  paused : Bool
  work_accumulated_time : Int
  session_start_time : Int
  last_button_time : Int
deriving DecidableEq, Repr

/-- The switch-to-pause branch of toggle_pause_irq
(src/real_wall_bouncer.py lines 54-58): fold the finished session into
the accumulator and raise the paused flag. -/
def on_pause (s : WState) (current : Int) : WState :=
  { s with
      work_accumulated_time :=
        s.work_accumulated_time + (current - s.session_start_time),
      paused := true,
      last_button_time := current }

/-- The resume branch of toggle_pause_irq (src/real_wall_bouncer.py
lines 59-63): restart the session timer and clear the paused flag. -/
def on_resume (s : WState) (current : Int) : WState :=
  { s with
      session_start_time := current,
      paused := false,
      last_button_time := current }

/-- toggle_pause_irq of src/real_wall_bouncer.py lines 44-66: debounce
(accept only if more than 300 ms since the last accepted edge), then
flip between the pause and resume transitions. -/
def toggle_pause_irq (current : Int) (s : WState) : WState :=
  if current - s.last_button_time > 300 then
    if !s.paused then on_pause s current else on_resume s current
  else s

/-- Fold a sequence of rising-edge timestamps through toggle_pause_irq. -/
def runToggles (es : List Int) (s : WState) : WState :=
  es.foldl (fun st e => toggle_pause_irq e st) s

/-- The battery-logic work-time formula of src/real_wall_bouncer.py
line 116: accumulated work plus the delta of the current session. In the
program this line is only reached while not paused, because the pause
branch of check_status blocks until the flag clears. -/
def total_work_ms (s : WState) (now : Int) : Int :=
  s.work_accumulated_time + (now - s.session_start_time)

/-- Pause / debounce state of src/main.py (globals at lines 22-26):
paused flag, debounce timestamp, total paused time, and the timestamp at
which the current pause began. -/
structure MState where
  paused : Bool
  last_button_time : Int
  total_paused_time : Int
  pause_start_timestamp : Int
deriving DecidableEq, Repr

/-- toggle_pause of src/main.py lines 40-56: debounce, flip the paused
flag, then either mark the pause start or (on resume, when a pause start
was recorded) add the pause duration to the total paused time. -/
def toggle_pause (current : Int) (s : MState) : MState :=
  if current - s.last_button_time > 300 then
    let s1 : MState :=
      { s with paused := !s.paused, last_button_time := current }
    if s1.paused then
      { s1 with pause_start_timestamp := current }
    else if s1.pause_start_timestamp ≠ 0 then
      { s1 with total_paused_time :=
          s1.total_paused_time + (current - s1.pause_start_timestamp) }
    else s1
  else s

/-- Fold a sequence of rising-edge timestamps through toggle_pause. -/
def runTogglesM (es : List Int) (s : MState) : MState :=
  es.foldl (fun st e => toggle_pause e st) s

/-- The battery-logic work-time formula of src/main.py line 111: total
elapsed time minus total paused time. -/
def elapsed_work_ms (s : MState) (now start_time : Int) : Int :=
  (now - start_time) - s.total_paused_time

/-- One poll of the hold-duration detector, src/real_wall_bouncer.py
lines 79-89 (identical in src/main.py lines 95-106). Input: raw button
level, current tick, stored press_start (0 means no active press).
Output: updated press_start and whether the terminate branch fired. -/
def poll_hold (raw : Bool) (now press_start : Int) : Int × Bool :=
  if raw then
    if press_start = 0 then (now, false)
    else if now - press_start > 3000 then (press_start, true)
    else (press_start, false)
  else (0, false)

/-- Run the hold detector over a list of (tick, raw-level) polls,
returning the final press_start and, for each poll, whether the
terminate branch fired there. -/
def run_hold : List (Int × Bool) → Int → Int × List Bool
  | [], p => (p, [])
  | (t, raw) :: rest, p =>
    let step := poll_hold raw t p
    let tail := run_hold rest step.1
    (tail.1, step.2 :: tail.2)

/-- The per-cycle outcome a resolver emits: user termination, the
blocking pause-indicator behaviour, the critical-battery shutdown
sequence, or a (speed, blue-override) decision. -/
inductive Outcome
  | terminated
  | pausedLoop
  | criticalShutdown
  | decision (speed : ℚ) (blue : Bool)
deriving DecidableEq, Repr

/-- One cycle of check_status, src/real_wall_bouncer.py lines 70-141.
Order: terminate check first, then pause handling (which blocks while
paused, modelled as the pausedLoop outcome), then battery logic.
Returns the outcome and the updated press_start. -/
def check_status (s : WState) (raw : Bool) (press_start now : Int) :
    Outcome × Int :=
  let step := poll_hold raw now press_start
  if step.2 then (Outcome.terminated, step.1)
  else if s.paused then (Outcome.pausedLoop, step.1)
  else
    match battery_band (total_work_ms s now) with
    | Band.CRITICAL => (Outcome.criticalShutdown, step.1)
    | Band.DEGRADED => (Outcome.decision 0.25 true, step.1)
    | Band.NORMAL => (Outcome.decision 0.5 false, step.1)

/-- One cycle of check_battery_and_get_speed, src/main.py lines 61-133.
Order: pause handling FIRST (lines 68-93, blocking while paused), then
the terminate check (lines 95-106), then battery logic (lines 108-133).
Returns the outcome and the updated button_hold_start. -/
def check_battery_and_get_speed (s : MState) (raw : Bool)
    (hold_start now start_time : Int) :
    Outcome × Int :=
  if s.paused then (Outcome.pausedLoop, hold_start)
  else
    let step := poll_hold raw now hold_start
    if step.2 then (Outcome.terminated, step.1)
    else
      match battery_band (elapsed_work_ms s now start_time) with
      | Band.CRITICAL => (Outcome.criticalShutdown, step.1)
      | Band.DEGRADED => (Outcome.decision 0.25 true, step.1)
      | Band.NORMAL => (Outcome.decision 0.5 false, step.1)

/-- Observable side effects of the shutdown sequences: motor stop and
disable, set_leds (red digital, green duty, blue digital), the bare
red-LED writes of the real_wall_bouncer blink loop, and process exit. -/
inductive Action
  | stopMotors
  | disableMotors
  | setLeds (r : Bool) (g : Nat) (b : Bool)
  | ledRed (v : Bool)
  | sysExit
deriving DecidableEq, Repr

/-- The critical blink loop of src/real_wall_bouncer.py lines 125-130:
while the tick clock is before endT, write led_red 1, sleep 50 ms, write
led_red 0, sleep 50 ms (so each iteration advances the clock 100 ms; the
tick clock is a natural here as in the source). -/
def blink_red_loop (now endT : Nat) : List Action :=
  if now < endT then
    Action.ledRed true :: Action.ledRed false :: blink_red_loop (now + 100) endT
  else []
termination_by endT - now
decreasing_by omega

/-- The critical blink loop of src/main.py lines 119-124: while the tick
clock is before endT, set_leds(0, 0, 1), sleep 50 ms, set_leds(0, 0, 0),
sleep 50 ms. -/
def blink_blue_loop (now endT : Nat) : List Action :=
  if now < endT then
    Action.setLeds false 0 true :: Action.setLeds false 0 false ::
      blink_blue_loop (now + 100) endT
  else []
termination_by endT - now
decreasing_by omega

/-- The critical-battery shutdown sequence of src/real_wall_bouncer.py
lines 119-131: dmd.stop(), set_leds(0, 0, 0), blink red for the window
ending 5000 ms after now, sys.exit(). -/
def critical_sequence_rwb (now : Nat) : List Action :=
  Action.stopMotors :: Action.setLeds false 0 false ::
    (blink_red_loop now (now + 5000) ++ [Action.sysExit])

/-- The critical-battery shutdown sequence of src/main.py lines 113-125:
dmd.stop(), set_leds(1, 0, 0), blink set_leds(0, 0, 1) / set_leds(0, 0, 0)
for the window ending 5000 ms after now, sys.exit(). -/
def critical_sequence_main (now : Nat) : List Action :=
  Action.stopMotors :: Action.setLeds true 0 false ::
    (blink_blue_loop now (now + 5000) ++ [Action.sysExit])

/-- Auxiliary potential for monotonicity: the work total that the battery
logic can observe. While paused the battery line is unreachable and the
accumulator is frozen at work_accumulated_time. -/
def active_total (s : WState) (now : Int) : Int :=
  if s.paused then s.work_accumulated_time else total_work_ms s now

/-- The switch-to-pause branch of toggle_pause in src/main.py lines
47-52: flip to paused, stamp the debounce time, and mark when the pause
began. -/
def m_on_pause (s : MState) (current : Int) : MState :=
  { s with
      paused := true,
      last_button_time := current,
      pause_start_timestamp := current }

/-- The resume branch of toggle_pause in src/main.py lines 53-56: flip
to running, stamp the debounce time, and (when a pause start was
recorded) add the pause duration to the total paused time. -/
def m_on_resume (s : MState) (current : Int) : MState :=
  if s.pause_start_timestamp ≠ 0 then
    { s with
        paused := false,
        last_button_time := current,
        total_paused_time :=
          s.total_paused_time + (current - s.pause_start_timestamp) }
  else
    { s with paused := false, last_button_time := current }

/-- Auxiliary potential for the main.py accumulator: the work total its
battery logic can observe at the given clock. While paused the battery
line is unreachable; the last observable value is the one at the moment
the pause began (pause_start_timestamp). -/
def active_elapsed (s : MState) (st now : Int) : Int :=
  if s.paused then (s.pause_start_timestamp - st) - s.total_paused_time
  else (now - st) - s.total_paused_time

/-! ## Supporting lemmas -/

theorem runToggles_cons (e : Int) (es : List Int) (s : WState) :
    runToggles (e :: es) s = runToggles es (toggle_pause_irq e s) := rfl

theorem runTogglesM_cons (e : Int) (es : List Int) (s : MState) :
    runTogglesM (e :: es) s = runTogglesM es (toggle_pause e s) := rfl

theorem active_total_mono_time (s : WState) {t t' : Int} (h : t ≤ t') :
    active_total s t ≤ active_total s t' := by
  unfold active_total total_work_ms
  split <;> omega

theorem active_total_toggle (s : WState) {c t : Int} (hct : c ≤ t) :
    active_total s c ≤ active_total (toggle_pause_irq c s) t := by
  unfold toggle_pause_irq
  split
  · cases hp : s.paused
    · simp [hp, on_pause, active_total, total_work_ms]
    · simp [hp, on_resume, active_total, total_work_ms]
      omega
  · exact active_total_mono_time s hct

theorem active_total_runToggles (es : List Int) (s : WState) {c t : Int}
    (hchain : List.Chain (· ≤ ·) c es) (hbound : ∀ e ∈ es, e ≤ t)
    (hct : c ≤ t) :
    active_total s c ≤ active_total (runToggles es s) t := by
  induction es generalizing s c with
  | nil => exact active_total_mono_time s hct
  | cons e rest ih =>
    rw [List.chain_cons] at hchain
    obtain ⟨hce, hchain⟩ := hchain
    have het : e ≤ t := hbound e (by simp)
    calc active_total s c ≤ active_total s e := active_total_mono_time s hce
      _ ≤ active_total (toggle_pause_irq e s) e := active_total_toggle s le_rfl
      _ ≤ active_total (runToggles rest (toggle_pause_irq e s)) t := by
            exact ih (toggle_pause_irq e s) hchain
              (fun x hx => hbound x (by simp [hx])) het
      _ = active_total (runToggles (e :: rest) s) t := by
            rw [runToggles_cons]

theorem active_total_eq_total_work (s : WState) (now : Int)
    (h : s.paused = false) : active_total s now = total_work_ms s now := by
  simp [active_total, h]

/-- An accepted edge flips the paused flag and stamps the debounce time
(real_wall_bouncer variant). -/
theorem toggle_pause_irq_accepted (s : WState) (e : Int)
    (he : e - s.last_button_time > 300) :
    (toggle_pause_irq e s).paused = !s.paused ∧
    (toggle_pause_irq e s).last_button_time = e := by
  unfold toggle_pause_irq
  rw [if_pos he]
  cases hp : s.paused <;> simp [hp, on_pause, on_resume]

/-- An accepted edge flips the paused flag and stamps the debounce time
(main variant). -/
theorem toggle_pause_accepted (s : MState) (e : Int)
    (he : e - s.last_button_time > 300) :
    (toggle_pause e s).paused = !s.paused ∧
    (toggle_pause e s).last_button_time = e := by
  unfold toggle_pause
  rw [if_pos he]
  dsimp only
  split_ifs <;> simp

theorem runToggles_paused_bodd (es : List Int) (s : WState)
    (h : List.Chain (fun a b => b - a > 300) s.last_button_time es) :
    (runToggles es s).paused = (xor s.paused es.length.bodd) := by
  induction es generalizing s with
  | nil => simp [runToggles]
  | cons e rest ih =>
    rw [List.chain_cons] at h
    obtain ⟨he, hrest⟩ := h
    obtain ⟨hflip, hlast⟩ := toggle_pause_irq_accepted s e he
    rw [runToggles_cons,
      ih (toggle_pause_irq e s) (by rw [hlast]; exact hrest), hflip]
    cases s.paused <;> cases hb : rest.length.bodd <;>
      simp [List.length_cons, Nat.bodd_succ, hb]

theorem runTogglesM_paused_bodd (es : List Int) (s : MState)
    (h : List.Chain (fun a b => b - a > 300) s.last_button_time es) :
    (runTogglesM es s).paused = (xor s.paused es.length.bodd) := by
  induction es generalizing s with
  | nil => simp [runTogglesM]
  | cons e rest ih =>
    rw [List.chain_cons] at h
    obtain ⟨he, hrest⟩ := h
    obtain ⟨hflip, hlast⟩ := toggle_pause_accepted s e he
    rw [runTogglesM_cons,
      ih (toggle_pause e s) (by rw [hlast]; exact hrest), hflip]
    cases s.paused <;> cases hb : rest.length.bodd <;>
      simp [List.length_cons, Nat.bodd_succ, hb]

/-- While a press is active (press_start nonzero), a pressed poll keeps
press_start and fires exactly when the press is older than 3000 ms. -/
theorem poll_hold_pressed (t p : Int) (hp : p ≠ 0) :
    poll_hold true t p = (p, decide (t - p > 3000)) := by
  unfold poll_hold
  rw [if_pos rfl, if_neg hp]
  by_cases h : t - p > 3000 <;> simp [h]

/-- Running the detector over an all-pressed poll list with an already
recorded nonzero press_start: the press_start is kept and each poll fires
exactly when it is more than 3000 ms after press_start. -/
theorem run_hold_pressed (ts : List Int) (p : Int) (hp : p ≠ 0) :
    run_hold (ts.map (fun t => (t, true))) p
      = (p, ts.map (fun t => decide (t - p > 3000))) := by
  induction ts with
  | nil => rfl
  | cons t rest ih =>
    simp only [List.map_cons, run_hold, poll_hold_pressed t p hp, ih]

/-- An accepted edge on a running main.py state takes the pause branch. -/
theorem toggle_pause_run_branch (s : MState) (c : Int)
    (hp : s.paused = false) (hc : c - s.last_button_time > 300) :
    toggle_pause c s = m_on_pause s c := by
  unfold toggle_pause m_on_pause
  rw [if_pos hc]
  simp [hp]

/-- An accepted edge on a paused main.py state takes the resume branch. -/
theorem toggle_pause_paused_branch (s : MState) (c : Int)
    (hp : s.paused = true) (hc : c - s.last_button_time > 300) :
    toggle_pause c s = m_on_resume s c := by
  unfold toggle_pause m_on_resume
  rw [if_pos hc]
  by_cases hps : s.pause_start_timestamp = 0
  · simp [hp, hps]
  · simp [hp, hps]

theorem active_elapsed_mono_time (s : MState) (st : Int) {t t' : Int}
    (h : t ≤ t') : active_elapsed s st t ≤ active_elapsed s st t' := by
  unfold active_elapsed
  split <;> omega

theorem active_elapsed_toggle (s : MState) (st : Int) {c t : Int}
    (hct : c ≤ t) (hc : 0 ≤ c) :
    active_elapsed s st c ≤ active_elapsed (toggle_pause c s) st t := by
  by_cases hacc : c - s.last_button_time > 300
  · cases hp : s.paused
    · rw [toggle_pause_run_branch s c hp hacc]
      simp [active_elapsed, m_on_pause, hp]
    · rw [toggle_pause_paused_branch s c hp hacc]
      unfold m_on_resume active_elapsed
      by_cases hps : s.pause_start_timestamp = 0
      · simp [hp, hps]
        omega
      · simp [hp, hps]
        omega
  · unfold toggle_pause
    rw [if_neg hacc]
    exact active_elapsed_mono_time s st hct

theorem active_elapsed_runTogglesM (es : List Int) (s : MState)
    (st : Int) {c t : Int}
    (hchain : List.Chain (· ≤ ·) c es) (hbound : ∀ e ∈ es, e ≤ t)
    (hct : c ≤ t) (hc : 0 ≤ c) :
    active_elapsed s st c ≤ active_elapsed (runTogglesM es s) st t := by
  induction es generalizing s c with
  | nil => exact active_elapsed_mono_time s st hct
  | cons e rest ih =>
    rw [List.chain_cons] at hchain
    obtain ⟨hce, hchain⟩ := hchain
    have het : e ≤ t := hbound e (by simp)
    have he0 : (0 : Int) ≤ e := le_trans hc hce
    calc active_elapsed s st c
        ≤ active_elapsed s st e := active_elapsed_mono_time s st hce
      _ ≤ active_elapsed (toggle_pause e s) st e :=
          active_elapsed_toggle s st le_rfl he0
      _ ≤ active_elapsed (runTogglesM rest (toggle_pause e s)) st t :=
          ih (toggle_pause e s) hchain
            (fun x hx => hbound x (by simp [hx])) het he0
      _ = active_elapsed (runTogglesM (e :: rest) s) st t := by
          rw [runTogglesM_cons]

theorem active_elapsed_eq_elapsed_work (s : MState) (st now : Int)
    (h : s.paused = false) :
    active_elapsed s st now = elapsed_work_ms s now st := by
  simp [active_elapsed, elapsed_work_ms, h]

theorem blink_red_loop_nil {now endT : Nat} (h : endT ≤ now) :
    blink_red_loop now endT = [] := by
  rw [blink_red_loop]
  simp [Nat.not_lt.mpr h]

theorem blink_blue_loop_nil {now endT : Nat} (h : endT ≤ now) :
    blink_blue_loop now endT = [] := by
  rw [blink_blue_loop]
  simp [Nat.not_lt.mpr h]

theorem blink_red_loop_mem (now endT : Nat) :
    ∀ a ∈ blink_red_loop now endT,
      a = Action.ledRed true ∨ a = Action.ledRed false := by
  induction now, endT using blink_red_loop.induct with
  | case1 now endT h ih =>
    rw [blink_red_loop, if_pos h]
    intro a ha
    rcases List.mem_cons.mp ha with h1 | ha
    · exact Or.inl h1
    rcases List.mem_cons.mp ha with h2 | ha
    · exact Or.inr h2
    exact ih a ha
  | case2 now endT h =>
    rw [blink_red_loop, if_neg h]
    intro a ha
    exact absurd ha (List.not_mem_nil a)

theorem blink_blue_loop_mem (now endT : Nat) :
    ∀ a ∈ blink_blue_loop now endT,
      a = Action.setLeds false 0 true ∨ a = Action.setLeds false 0 false := by
  induction now, endT using blink_blue_loop.induct with
  | case1 now endT h ih =>
    rw [blink_blue_loop, if_pos h]
    intro a ha
    rcases List.mem_cons.mp ha with h1 | ha
    · exact Or.inl h1
    rcases List.mem_cons.mp ha with h2 | ha
    · exact Or.inr h2
    exact ih a ha
  | case2 now endT h =>
    rw [blink_blue_loop, if_neg h]
    intro a ha
    exact absurd ha (List.not_mem_nil a)

theorem blink_red_loop_length (d : Nat) :
    ∀ n, (blink_red_loop n (n + d)).length = 2 * ((d + 99) / 100) := by
  induction d using Nat.strong_induction_on with
  | _ d ih =>
    intro n
    by_cases h : 0 < d
    · rw [blink_red_loop, if_pos (by omega)]
      by_cases h2 : d ≤ 100
      · rw [blink_red_loop_nil (by omega)]
        simp only [List.length_cons, List.length_nil]
        omega
      · have hrw : n + d = (n + 100) + (d - 100) := by omega
        rw [hrw]
        simp only [List.length_cons]
        rw [ih (d - 100) (by omega) (n + 100)]
        omega
    · rw [blink_red_loop_nil (by omega)]
      simp only [List.length_nil]
      omega

theorem critical_sequence_rwb_getLast (now : Nat) :
    (critical_sequence_rwb now).getLast? = some Action.sysExit := by
  have h : critical_sequence_rwb now
      = (Action.stopMotors :: Action.setLeds false 0 false ::
          blink_red_loop now (now + 5000)) ++ [Action.sysExit] := by
    simp [critical_sequence_rwb]
  rw [h, List.getLast?_concat]

theorem critical_sequence_main_getLast (now : Nat) :
    (critical_sequence_main now).getLast? = some Action.sysExit := by
  have h : critical_sequence_main now
      = (Action.stopMotors :: Action.setLeds true 0 false ::
          blink_blue_loop now (now + 5000)) ++ [Action.sysExit] := by
    simp [critical_sequence_main]
  rw [h, List.getLast?_concat]

/-- Any decision emitted by check_status is one of the two literal
decisions of the source. -/
theorem check_status_decision_shape (s : WState) (raw : Bool)
    (p now : Int) (sp : ℚ) (bl : Bool)
    (hdec : (check_status s raw p now).1 = Outcome.decision sp bl) :
    (sp = 0.5 ∧ bl = false) ∨ (sp = 0.25 ∧ bl = true) := by
  by_cases hfire : (poll_hold raw now p).2 = true
  · simp [check_status, hfire] at hdec
  · by_cases hp : s.paused = true
    · simp [check_status, hfire, hp] at hdec
    · cases hband : battery_band (total_work_ms s now) <;>
        simp [check_status, hfire, hp, hband] at hdec
      · exact Or.inl ⟨hdec.1.symm, hdec.2⟩
      · exact Or.inr ⟨hdec.1.symm, hdec.2⟩

/-- Any decision emitted by check_battery_and_get_speed is one of the two
literal decisions of the source. -/
theorem check_bgs_decision_shape (s : MState) (raw : Bool)
    (h now st : Int) (sp : ℚ) (bl : Bool)
    (hdec : (check_battery_and_get_speed s raw h now st).1
      = Outcome.decision sp bl) :
    (sp = 0.5 ∧ bl = false) ∨ (sp = 0.25 ∧ bl = true) := by
  by_cases hp : s.paused = true
  · simp [check_battery_and_get_speed, hp] at hdec
  · by_cases hfire : (poll_hold raw now h).2 = true
    · simp [check_battery_and_get_speed, hfire, hp] at hdec
    · cases hband : battery_band (elapsed_work_ms s now st) <;>
        simp [check_battery_and_get_speed, hfire, hp, hband] at hdec
      · exact Or.inl ⟨hdec.1.symm, hdec.2⟩
      · exact Or.inr ⟨hdec.1.symm, hdec.2⟩

/-- The two literal decisions stay inside the claimed ranges. -/
theorem decision_shape_range (sp : ℚ) (bl : Bool)
    (h : (sp = 0.5 ∧ bl = false) ∨ (sp = 0.25 ∧ bl = true)) :
    0 ≤ sp ∧ sp ≤ 1 ∧ (bl = true ↔ sp = 0.25) := by
  rcases h with ⟨hs, hb⟩ | ⟨hs, hb⟩ <;> subst hs <;> subst hb <;>
    refine ⟨by norm_num, by norm_num, ?_⟩
  · constructor
    · intro hh
      exact absurd hh (by norm_num)
    · intro hh
      exact absurd hh (by norm_num)
  · simp

/-! ## Claim theorems -/

/-- C1 counterexample: at total active time exactly 45000 ms the code
computes NORMAL (strict comparison `elapsed > 45000`), not DEGRADED as
the claim states, and the resolver emits the normal-speed decision. -/
theorem C1_counterexample :
    battery_band 45000 = Band.NORMAL ∧ Band.NORMAL ≠ Band.DEGRADED ∧
    (check_status ⟨false, 45000, 0, 0⟩ false 0 0).1
      = Outcome.decision 0.5 false := by
  refine ⟨rfl, by decide, rfl⟩

/-- C1 (amended): the band is NORMAL exactly when t ≤ 45000 ms, DEGRADED
exactly when 45000 < t ≤ 55000 ms, and CRITICAL exactly when t > 55000 ms;
in particular at t = 45000 the band is NORMAL (not DEGRADED) and at
t = 55000 it is DEGRADED (not CRITICAL). -/
theorem C1_band_thresholds (t : Int) :
    (battery_band t = Band.NORMAL ↔ t ≤ 45000) ∧
    (battery_band t = Band.DEGRADED ↔ 45000 < t ∧ t ≤ 55000) ∧
    (battery_band t = Band.CRITICAL ↔ 55000 < t) := by
  unfold battery_band
  split_ifs with h1 h2 <;> refine ⟨?_, ?_, ?_⟩ <;> simp <;> omega

/-- C1 witness: the amended thresholds applied at t = 50000. -/
theorem C1_band_thresholds_witness :
    battery_band 50000 = Band.DEGRADED :=
  (C1_band_thresholds 50000).2.1.mpr (by decide)

/-- C2 counterexample: in the src/main.py resolver, with the button held
since tick 1 and the pause flag set, the cycle entered at tick 5000
(hold duration 4999 ms > 3000 ms) emits the pause-indicator behaviour,
not TERMINATED. -/
theorem C2_counterexample :
    (check_battery_and_get_speed ⟨true, 0, 0, 0⟩ true 1 5000 0).1
      = Outcome.pausedLoop ∧
    Outcome.pausedLoop ≠ Outcome.terminated := by
  exact ⟨rfl, by decide⟩

/-- C2 (amended): in src/real_wall_bouncer.py the terminate check is
evaluated first and overrides both the pause flag and the battery band
in the same cycle; in src/main.py the pause handling precedes the
terminate check, so a cycle entered while PAUSED emits the
pause-indicator behaviour regardless of the hold duration. -/
theorem C2_priority :
    (∀ (s : WState) (raw : Bool) (p now : Int),
        (poll_hold raw now p).2 = true →
        (check_status s raw p now).1 = Outcome.terminated) ∧
    (∀ (s : MState) (raw : Bool) (h now st : Int),
        s.paused = true →
        (check_battery_and_get_speed s raw h now st).1
          = Outcome.pausedLoop) := by
  constructor
  · intro s raw p now hfire
    simp [check_status, hfire]
  · intro s raw h now st hp
    simp [check_battery_and_get_speed, hp]

/-- C2 witness: a real_wall_bouncer cycle that is simultaneously paused,
battery-critical, and past the hold threshold emits TERMINATED; a main.py
cycle entered paused emits the pause behaviour. -/
theorem C2_priority_witness :
    (check_status ⟨true, 60000, 0, 0⟩ true 1 5000).1 = Outcome.terminated ∧
    (check_battery_and_get_speed ⟨true, 0, 0, 0⟩ true 2 6000 0).1
      = Outcome.pausedLoop :=
  ⟨C2_priority.1 ⟨true, 60000, 0, 0⟩ true 1 5000 (by decide),
   C2_priority.2 ⟨true, 0, 0, 0⟩ true 2 6000 0 rfl⟩

/-- C5: an edge at most 300 ms after the last accepted edge is a complete
no-op on the whole state, in both program variants; and over any edge
sequence in which each edge is more than 300 ms after the previous
accepted one (counting the initial debounce timestamp 0), the paused
flag after the sequence is exactly the parity of the number of edges, so
PauseState alternates strictly RUNNING, PAUSED, ... from RUNNING. -/
theorem C5_debounce_alternation :
    (∀ (s : WState) (now : Int), now - s.last_button_time ≤ 300 →
        toggle_pause_irq now s = s) ∧
    (∀ (s : MState) (now : Int), now - s.last_button_time ≤ 300 →
        toggle_pause now s = s) ∧
    (∀ (es : List Int) (s : WState), s.paused = false →
        List.Chain (fun a b => b - a > 300) s.last_button_time es →
        (runToggles es s).paused = es.length.bodd) ∧
    (∀ (es : List Int) (s : MState), s.paused = false →
        List.Chain (fun a b => b - a > 300) s.last_button_time es →
        (runTogglesM es s).paused = es.length.bodd) := by
  refine ⟨?_, ?_, ?_, ?_⟩
  · intro s now h
    unfold toggle_pause_irq
    rw [if_neg (by omega)]
  · intro s now h
    unfold toggle_pause
    rw [if_neg (by omega)]
  · intro es s hp hchain
    rw [runToggles_paused_bodd es s hchain, hp]
    simp
  · intro es s hp hchain
    rw [runTogglesM_paused_bodd es s hchain, hp]
    simp

/-- C5 witness: a 100 ms edge is dropped whole; three well-spaced edges
leave the real_wall_bouncer state PAUSED and two leave the main state
RUNNING. -/
theorem C5_debounce_alternation_witness :
    toggle_pause_irq 100 ⟨false, 0, 0, 0⟩ = ⟨false, 0, 0, 0⟩ ∧
    toggle_pause 100 ⟨false, 0, 0, 0⟩ = ⟨false, 0, 0, 0⟩ ∧
    (runToggles [400, 800, 1200] ⟨false, 0, 0, 0⟩).paused = true ∧
    (runTogglesM [400, 800] ⟨false, 0, 0, 0⟩).paused = false := by
  refine ⟨C5_debounce_alternation.1 ⟨false, 0, 0, 0⟩ 100 (by decide),
    C5_debounce_alternation.2.1 ⟨false, 0, 0, 0⟩ 100 (by decide), ?_, ?_⟩
  · rw [C5_debounce_alternation.2.2.1 [400, 800, 1200] ⟨false, 0, 0, 0⟩ rfl
      (List.Chain.cons (by norm_num) (List.Chain.cons (by norm_num)
        (List.Chain.cons (by norm_num) List.Chain.nil)))]
    rfl
  · rw [C5_debounce_alternation.2.2.2 [400, 800] ⟨false, 0, 0, 0⟩ rfl
      (List.Chain.cons (by norm_num) (List.Chain.cons (by norm_num)
        List.Chain.nil))]
    rfl

/-- C7: when the battery band is DEGRADED the resolver returns exactly
speed 0.25 with the blue override set, and when NORMAL exactly speed 0.5
with no override, in both program variants. -/
theorem C7_band_decisions :
    (∀ (s : WState) (raw : Bool) (p now : Int),
        s.paused = false → (poll_hold raw now p).2 = false →
        (battery_band (total_work_ms s now) = Band.DEGRADED →
          (check_status s raw p now).1 = Outcome.decision 0.25 true) ∧
        (battery_band (total_work_ms s now) = Band.NORMAL →
          (check_status s raw p now).1 = Outcome.decision 0.5 false)) ∧
    (∀ (s : MState) (raw : Bool) (h now st : Int),
        s.paused = false → (poll_hold raw now h).2 = false →
        (battery_band (elapsed_work_ms s now st) = Band.DEGRADED →
          (check_battery_and_get_speed s raw h now st).1
            = Outcome.decision 0.25 true) ∧
        (battery_band (elapsed_work_ms s now st) = Band.NORMAL →
          (check_battery_and_get_speed s raw h now st).1
            = Outcome.decision 0.5 false)) := by
  constructor
  · intro s raw p now hp hfire
    constructor <;> intro hband <;> simp [check_status, hp, hfire, hband]
  · intro s raw h now st hp hfire
    constructor <;> intro hband <;>
      simp [check_battery_and_get_speed, hp, hfire, hband]

/-- C7 witness: a degraded-band real_wall_bouncer cycle (total 50000 ms)
and a normal-band main.py cycle (elapsed 10000 ms). -/
theorem C7_band_decisions_witness :
    (check_status ⟨false, 50000, 0, 0⟩ false 0 0).1
      = Outcome.decision 0.25 true ∧
    (check_battery_and_get_speed ⟨false, 0, 0, 0⟩ false 0 10000 0).1
      = Outcome.decision 0.5 false :=
  ⟨(C7_band_decisions.1 ⟨false, 50000, 0, 0⟩ false 0 0 rfl rfl).1 (by decide),
   (C7_band_decisions.2 ⟨false, 0, 0, 0⟩ false 0 10000 0 rfl rfl).2
     (by decide)⟩

/-- C8 counterexample: with session_start_time 100 and the clock read
back at 50, the computed total active time is the negative value -50,
not the zero the claim requires. -/
theorem C8_counterexample :
    total_work_ms ⟨false, 0, 100, 0⟩ 50 = -50 ∧ (-50 : Int) ≠ 0 := by
  exact ⟨rfl, by decide⟩

/-- C8 (amended): negative clock deltas are NOT clamped to zero and do
propagate into the total active time; but because every band threshold
is a strict lower bound, any non-positive total yields the same band
(NORMAL) and the same decision (speed 0.5, no override) as a zero-length
duration, in both program variants. -/
theorem C8_negative_duration :
    (∀ t : Int, t ≤ 0 →
        battery_band t = battery_band 0 ∧ battery_band t = Band.NORMAL) ∧
    (∀ (s : WState) (raw : Bool) (p now : Int),
        s.paused = false → (poll_hold raw now p).2 = false →
        total_work_ms s now ≤ 0 →
        (check_status s raw p now).1 = Outcome.decision 0.5 false) ∧
    (∀ (s : MState) (raw : Bool) (h now st : Int),
        s.paused = false → (poll_hold raw now h).2 = false →
        elapsed_work_ms s now st ≤ 0 →
        (check_battery_and_get_speed s raw h now st).1
          = Outcome.decision 0.5 false) := by
  refine ⟨?_, ?_, ?_⟩
  · intro t ht
    have h1 : battery_band t = Band.NORMAL := by
      unfold battery_band
      rw [if_neg (by omega), if_neg (by omega)]
    have h0 : battery_band 0 = Band.NORMAL := rfl
    exact ⟨h1.trans h0.symm, h1⟩
  · intro s raw p now hp hfire ht
    have hband : battery_band (total_work_ms s now) = Band.NORMAL := by
      unfold battery_band
      rw [if_neg (by omega), if_neg (by omega)]
    simp [check_status, hp, hfire, hband]
  · intro s raw h now st hp hfire ht
    have hband : battery_band (elapsed_work_ms s now st) = Band.NORMAL := by
      unfold battery_band
      rw [if_neg (by omega), if_neg (by omega)]
    simp [check_battery_and_get_speed, hp, hfire, hband]

/-- C8 witness: band and decision at the concrete negative totals -7 and
-50 equal the zero-duration results. -/
theorem C8_negative_duration_witness :
    (battery_band (-7) = battery_band 0 ∧ battery_band (-7) = Band.NORMAL) ∧
    (check_status ⟨false, 0, 100, 0⟩ false 0 50).1
      = Outcome.decision 0.5 false ∧
    (check_battery_and_get_speed ⟨false, 0, 30, 0⟩ false 0 20 0).1
      = Outcome.decision 0.5 false :=
  ⟨C8_negative_duration.1 (-7) (by decide),
   C8_negative_duration.2.1 ⟨false, 0, 100, 0⟩ false 0 50 rfl rfl (by decide),
   C8_negative_duration.2.2 ⟨false, 0, 30, 0⟩ false 0 20 0 rfl rfl
     (by decide)⟩

/-- C9: every pair returned by either resolver is exactly (0.5, no
override) or (0.25, blue override); the speed lies in [0, 1] and the
blue flag is set exactly when the speed is 0.25. -/
theorem C9_decision_range :
    (∀ (s : WState) (raw : Bool) (p now : Int) (sp : ℚ) (bl : Bool),
        (check_status s raw p now).1 = Outcome.decision sp bl →
        ((sp = 0.5 ∧ bl = false) ∨ (sp = 0.25 ∧ bl = true)) ∧
        0 ≤ sp ∧ sp ≤ 1 ∧ (bl = true ↔ sp = 0.25)) ∧
    (∀ (s : MState) (raw : Bool) (h now st : Int) (sp : ℚ) (bl : Bool),
        (check_battery_and_get_speed s raw h now st).1
          = Outcome.decision sp bl →
        ((sp = 0.5 ∧ bl = false) ∨ (sp = 0.25 ∧ bl = true)) ∧
        0 ≤ sp ∧ sp ≤ 1 ∧ (bl = true ↔ sp = 0.25)) := by
  constructor
  · intro s raw p now sp bl hdec
    have h := check_status_decision_shape s raw p now sp bl hdec
    exact ⟨h, decision_shape_range sp bl h⟩
  · intro s raw h now st sp bl hdec
    have hs := check_bgs_decision_shape s raw h now st sp bl hdec
    exact ⟨hs, decision_shape_range sp bl hs⟩

/-- C9 witness: the normal-band real_wall_bouncer cycle at time 0. -/
theorem C9_decision_range_witness :
    (((0.5 : ℚ) = 0.5 ∧ false = false) ∨ ((0.5 : ℚ) = 0.25 ∧ false = true)) ∧
    (0 : ℚ) ≤ 0.5 ∧ (0.5 : ℚ) ≤ 1 ∧ (false = true ↔ (0.5 : ℚ) = 0.25) :=
  C9_decision_range.1 ⟨false, 0, 0, 0⟩ false 0 0 0.5 false rfl

/-- C3 counterexample: in the src/main.py critical branch the indicator
write that follows the motor stop is set_leds(1, 0, 0) — steady red, not
the blank the claim requires — and no red-LED blink write occurs at all
(the blink writes blue). -/
theorem C3_counterexample :
    (critical_sequence_main 0).take 2
      = [Action.stopMotors, Action.setLeds true 0 false] ∧
    Action.setLeds true 0 false ≠ Action.setLeds false 0 false ∧
    Action.ledRed true ∉ critical_sequence_main 0 := by
  refine ⟨rfl, by decide, ?_⟩
  intro hmem
  simp only [critical_sequence_main, List.mem_cons, List.mem_append,
    List.mem_singleton] at hmem
  rcases hmem with h | h | h | h
  · exact absurd h (by decide)
  · exact absurd h (by decide)
  · rcases blink_blue_loop_mem 0 (0 + 5000) _ h with h2 | h2 <;>
      exact absurd h2 (by decide)
  · exact absurd h (by decide)

/-- C3 (amended): in src/real_wall_bouncer.py the critical sequence is
exactly stop motors, blank indicator, blink the red LED at 10 Hz (50
on/off periods of 100 ms covering the 5000 ms window), then exit; in
src/main.py it is stop motors, set the indicator steady red, blink blue
at the same rate and window, then exit. In both variants the motor stop
comes before every indicator change and the exit comes last. -/
theorem C3_critical_sequence (now : Nat) :
    (critical_sequence_rwb now).head? = some Action.stopMotors ∧
    (critical_sequence_rwb now)[1]? = some (Action.setLeds false 0 false) ∧
    (critical_sequence_rwb now).getLast? = some Action.sysExit ∧
    (blink_red_loop now (now + 5000)).length = 100 ∧
    (∀ a ∈ blink_red_loop now (now + 5000),
        a = Action.ledRed true ∨ a = Action.ledRed false) ∧
    (critical_sequence_main now).head? = some Action.stopMotors ∧
    (critical_sequence_main now)[1]? = some (Action.setLeds true 0 false) ∧
    (critical_sequence_main now).getLast? = some Action.sysExit ∧
    (∀ a ∈ blink_blue_loop now (now + 5000),
        a = Action.setLeds false 0 true ∨ a = Action.setLeds false 0 false) := by
  refine ⟨rfl, by simp [critical_sequence_rwb], critical_sequence_rwb_getLast now, ?_,
    blink_red_loop_mem now (now + 5000), rfl, by simp [critical_sequence_main],
    critical_sequence_main_getLast now,
    blink_blue_loop_mem now (now + 5000)⟩
  rw [blink_red_loop_length 5000 now]

/-- C3 witness: the first write of the real_wall_bouncer blink window is
a red-LED write. -/
theorem C3_critical_sequence_witness :
    Action.ledRed true = Action.ledRed true ∨
    Action.ledRed true = Action.ledRed false := by
  have hm : Action.ledRed true ∈ blink_red_loop 0 (0 + 5000) := by
    rw [blink_red_loop, if_pos (by norm_num)]
    exact List.mem_cons_self _ _
  exact (C3_critical_sequence 0).2.2.2.2.1 (Action.ledRed true) hm

/-- C4: the real_wall_bouncer work accumulator: the total observed while
running never decreases across any ordered sequence of toggle edges; an
accepted pause at c followed by an accepted resume at r excludes exactly
the paused span (total afterwards = total at the pause instant plus time
since the resume); the pause-then-resume transition pair taken at one
timestamp leaves total_work_ms unchanged at every observation time; the
main.py accumulator subtracts exactly the paused span after an accepted
pause/resume pair; the main.py total observed while running (at the
nonnegative ticks the clock produces) likewise never decreases across
any ordered sequence of toggle edges; and the main.py pause-then-resume
transition pair taken at one timestamp leaves elapsed_work_ms unchanged
at every observation time. -/
theorem C4_work_timer :
    (∀ (es : List Int) (s : WState) (c t : Int),
        List.Chain (· ≤ ·) c es → (∀ e ∈ es, e ≤ t) → c ≤ t →
        s.paused = false → (runToggles es s).paused = false →
        total_work_ms s c ≤ total_work_ms (runToggles es s) t) ∧
    (∀ (s : WState) (c r now : Int), s.paused = false →
        c - s.last_button_time > 300 → r - c > 300 →
        total_work_ms (toggle_pause_irq r (toggle_pause_irq c s)) now
          = total_work_ms s c + (now - r)) ∧
    (∀ (s : WState) (c now : Int),
        total_work_ms (on_resume (on_pause s c) c) now
          = total_work_ms s now) ∧
    (∀ (s : MState) (c r now st : Int), s.paused = false → c ≠ 0 →
        c - s.last_button_time > 300 → r - c > 300 →
        elapsed_work_ms (toggle_pause r (toggle_pause c s)) now st
          = elapsed_work_ms s now st - (r - c)) ∧
    (∀ (es : List Int) (s : MState) (st c t : Int),
        List.Chain (· ≤ ·) c es → (∀ e ∈ es, e ≤ t) → c ≤ t → 0 ≤ c →
        s.paused = false → (runTogglesM es s).paused = false →
        elapsed_work_ms s c st ≤ elapsed_work_ms (runTogglesM es s) t st) ∧
    (∀ (s : MState) (c now st : Int),
        elapsed_work_ms (m_on_resume (m_on_pause s c) c) now st
          = elapsed_work_ms s now st) := by
  refine ⟨?_, ?_, ?_, ?_, ?_, ?_⟩
  · intro es s c t hchain hbound hct hp1 hp2
    have h := active_total_runToggles es s hchain hbound hct
    rwa [active_total_eq_total_work s c hp1,
      active_total_eq_total_work _ t hp2] at h
  · intro s c r now hp hc hr
    have h1 : toggle_pause_irq c s = on_pause s c := by
      unfold toggle_pause_irq
      rw [if_pos hc]
      simp [hp]
    have h2 : toggle_pause_irq r (on_pause s c) = on_resume (on_pause s c) r := by
      unfold toggle_pause_irq
      rw [if_pos (show r - (on_pause s c).last_button_time > 300 by
        simp only [on_pause]
        exact hr)]
      simp [on_pause]
    rw [h1, h2]
    simp only [on_pause, on_resume, total_work_ms]
  · intro s c now
    simp only [on_pause, on_resume, total_work_ms]
    omega
  · intro s c r now st hp hc0 hc hr
    have h1 : toggle_pause c s
        = ⟨true, c, s.total_paused_time, c⟩ := by
      unfold toggle_pause
      rw [if_pos hc]
      simp [hp]
    have h2 : toggle_pause r (⟨true, c, s.total_paused_time, c⟩ : MState)
        = ⟨false, r, s.total_paused_time + (r - c), c⟩ := by
      unfold toggle_pause
      rw [if_pos (show r - (⟨true, c, s.total_paused_time, c⟩ :
        MState).last_button_time > 300 from hr)]
      simp [hc0]
    rw [h1, h2]
    simp only [elapsed_work_ms]
    omega
  · intro es s st c t hchain hbound hct hc0 hp1 hp2
    have h := active_elapsed_runTogglesM es s st hchain hbound hct hc0
    rwa [active_elapsed_eq_elapsed_work s st c hp1,
      active_elapsed_eq_elapsed_work _ st t hp2] at h
  · intro s c now st
    unfold elapsed_work_ms m_on_resume m_on_pause
    by_cases hcz : c = 0
    · simp [hcz]
    · simp only [hcz, ne_eq, not_false_eq_true, if_true, if_pos]
      omega

/-- C4 witness: pause at 1000 and resume at 2000 from a fresh state. -/
theorem C4_work_timer_witness :
    total_work_ms ⟨false, 0, 0, 0⟩ 400
      ≤ total_work_ms (runToggles [1000, 2000] ⟨false, 0, 0, 0⟩) 2500 ∧
    total_work_ms
        (toggle_pause_irq 2000 (toggle_pause_irq 1000 ⟨false, 0, 0, 0⟩)) 2500
      = total_work_ms ⟨false, 0, 0, 0⟩ 1000 + (2500 - 2000) ∧
    total_work_ms (on_resume (on_pause ⟨false, 0, 0, 0⟩ 1000) 1000) 2500
      = total_work_ms ⟨false, 0, 0, 0⟩ 2500 ∧
    elapsed_work_ms (toggle_pause 2000 (toggle_pause 1000 ⟨false, 0, 0, 0⟩))
        2500 0
      = elapsed_work_ms ⟨false, 0, 0, 0⟩ 2500 0 - (2000 - 1000) ∧
    elapsed_work_ms ⟨false, 0, 0, 0⟩ 400 0
      ≤ elapsed_work_ms (runTogglesM [1000, 2000] ⟨false, 0, 0, 0⟩) 2500 0 ∧
    elapsed_work_ms (m_on_resume (m_on_pause ⟨false, 0, 0, 0⟩ 1000) 1000)
        2500 0
      = elapsed_work_ms ⟨false, 0, 0, 0⟩ 2500 0 :=
  ⟨C4_work_timer.1 [1000, 2000] ⟨false, 0, 0, 0⟩ 400 2500
      (List.Chain.cons (by norm_num)
        (List.Chain.cons (by norm_num) List.Chain.nil))
      (by decide) (by decide) rfl (by decide),
   C4_work_timer.2.1 ⟨false, 0, 0, 0⟩ 1000 2000 2500 rfl (by decide)
     (by decide),
   C4_work_timer.2.2.1 ⟨false, 0, 0, 0⟩ 1000 2500,
   C4_work_timer.2.2.2.1 ⟨false, 0, 0, 0⟩ 1000 2000 2500 0 rfl (by decide)
     (by decide) (by decide),
   C4_work_timer.2.2.2.2.1 [1000, 2000] ⟨false, 0, 0, 0⟩ 0 400 2500
      (List.Chain.cons (by norm_num)
        (List.Chain.cons (by norm_num) List.Chain.nil))
      (by decide) (by decide) (by decide) rfl (by decide),
   C4_work_timer.2.2.2.2.2 ⟨false, 0, 0, 0⟩ 1000 2500 0⟩

/-- C6 counterexample: polls at ticks 0, 1 and 3001 all read pressed — a
single continuous pressed span of 3001 ms ending at tick 3001 — yet no
poll fires the terminate branch, in particular not the poll at 3001. -/
theorem C6_counterexample :
    (run_hold [((0 : Int), true), (1, true), (3001, true)] 0).2
      = [false, false, false] := by decide

/-- C6 (amended): a poll reading released clears press_start
unconditionally, so short taps never accumulate; for a pressed run whose
first poll happens at a nonzero tick t0, press_start stays t0 and a poll
at tick t fires the terminate branch exactly when t - t0 > 3000; with
the button held from tick 0 and polled every millisecond, the tick-0
poll stores the unset sentinel, press_start is re-recorded at tick 1,
and termination first fires at tick 3002, never at or before 3001. -/
theorem C6_hold_detector :
    (∀ (now p : Int), poll_hold false now p = (0, false)) ∧
    (∀ (t0 : Int) (ts : List Int), t0 ≠ 0 →
        run_hold ((t0, true) :: ts.map (fun t => (t, true))) 0
          = (t0, false :: ts.map (fun t => decide (t - t0 > 3000)))) ∧
    (run_hold [((0 : Int), true), (1, true), (3000, true), (3001, true),
        (3002, true)] 0).2 = [false, false, false, false, true] := by
  refine ⟨fun now p => rfl, ?_, by decide⟩
  intro t0 ts ht
  have h := run_hold_pressed ts t0 ht
  calc run_hold ((t0, true) :: ts.map (fun t => (t, true))) 0
      = ((run_hold (ts.map (fun t => (t, true))) t0).1,
         false :: (run_hold (ts.map (fun t => (t, true))) t0).2) := rfl
    _ = (t0, false :: ts.map (fun t => decide (t - t0 > 3000))) := by rw [h]

/-- C6 witness: a pressed run first polled at tick 5. -/
theorem C6_hold_detector_witness :
    run_hold [((5 : Int), true), (2000, true), (3006, true)] 0
      = (5, [false, false, true]) := by
  have h := C6_hold_detector.2.1 5 [2000, 3006] (by decide)
  exact h.trans (by decide)

/-- C10 counterexample: with the first pressed poll at tick 0, the next
poll (tick 10) re-records press_start and the poll at tick 3011 fires the
terminate branch — the continuous press does trigger termination. -/
theorem C10_counterexample :
    (run_hold [((0 : Int), true), (10, true), (3011, true)] 0).2
      = [false, false, true] := by decide

/-- C10 (amended): a press first observed when the clock reads 0 records
press_start 0, which coincides with the unset sentinel, so the NEXT
pressed poll treats it as unset and re-records press_start at its own
tick; termination is delayed by one poll interval but still fires once a
poll is more than 3000 ms after that second pressed poll. -/
theorem C10_zero_sentinel :
    poll_hold true 0 0 = (0, false) ∧
    (∀ t : Int, poll_hold true t 0 = (t, false)) ∧
    (∀ (t1 : Int) (ts : List Int), t1 ≠ 0 →
        run_hold (((0 : Int), true) :: (t1, true) ::
            ts.map (fun t => (t, true))) 0
          = (t1, false :: false ::
              ts.map (fun t => decide (t - t1 > 3000)))) := by
  refine ⟨rfl, fun t => rfl, ?_⟩
  intro t1 ts ht
  have h := run_hold_pressed ts t1 ht
  calc run_hold (((0 : Int), true) :: (t1, true) ::
          ts.map (fun t => (t, true))) 0
      = ((run_hold (ts.map (fun t => (t, true))) t1).1,
         false :: false :: (run_hold (ts.map (fun t => (t, true))) t1).2) :=
        rfl
    _ = (t1, false :: false :: ts.map (fun t => decide (t - t1 > 3000))) :=
        by rw [h]

/-- C10 witness: press observed at ticks 0, 7 and 4000. -/
theorem C10_zero_sentinel_witness :
    run_hold [((0 : Int), true), (7, true), (4000, true)] 0
      = (7, [false, false, true]) := by
  have h := C10_zero_sentinel.2.2 7 [4000] (by decide)
  exact h.trans (by decide)

end WallBouncer
